import Mathlib

/-
Verification development for bipmap (src/bipmap.py), an interactive
command-line audio-alert tool built from a repeating timer (`RepeatTimer`),
a controller (`BeepController`) and a line-oriented command loop (`main`).

The Python program is shallowly embedded as a small-step interleaving
semantics.  One `Sys` state holds the timer state and the controller state;
an `Act` is one atomic step, where atomicity is at the granularity of one
Python statement of the source (each foreground controller method is a
single step, while the background `RepeatTimer._run` body is split into its
three statements, since those interleave with foreground calls).  Numeric
gain (Python `volume / 100.0`) is modelled in `ℚ`.
-/

set_option autoImplicit false

namespace Bipmap

/-- A playback event emitted by `mixer.music.play()` (bipmap.py line 71):
the sound currently loaded in the mixer, together with the controller
volume in effect at that moment.  The audible gain of the event is
`playGain` of that volume. -/
abbrev PlayEv := String × Int

/-- The gain at which a playback event sounds:
`mixer.music.set_volume(self.volume / 100.0)` (bipmap.py line 70),
with the float division modelled in `ℚ`. -/
def playGain (v : Int) : ℚ := (v : ℚ) / 100

/-- Combined state of one `RepeatTimer` (bipmap.py lines 13-43) and its
owning `BeepController` (lines 47-105).

Timer part: `interval` is `RepeatTimer.interval`; `latestPending` says
whether the `threading.Timer` currently referenced by `self._timer` is
scheduled and not yet fired/cancelled; `orphans` counts timers that are
still scheduled but no longer referenced by `self._timer` (a `start()`
overwrites `self._timer`, so an overwritten pending timer can no longer be
cancelled); `running` is `self.is_running`.

In-flight `_run` executions (lines 25-29): `inA` counts background threads
about to execute `self.is_running = False` (line 27), `inA2` threads about
to execute `self.start()` (line 28), `inB` threads about to execute the
callback `self.function(...)` (line 29), i.e. `BeepController.dong`.

Controller part (lines 50-55): `sound` is `self.sound`; `loaded` is the
sound currently loaded in `pygame.mixer.music` (which `dong` plays);
`delay` is `self.delay`; `volume` is `self.volume`; `paused` is
`self.paused`. -/
structure Sys where
  interval : Int
  latestPending : Bool
  orphans : Nat
  running : Bool
  inA : Nat
  inA2 : Nat
  inB : Nat
  sound : String
  loaded : String
  delay : Int
  volume : Int
  paused : Bool
deriving DecidableEq

/-- One atomic step of the system.  `elapse`/`elapseOrphan` are the
scheduling substrate delivering a due timer into `_run`; `runSetFlag`,
`runStart`, `runCallback` are the three statements of `RepeatTimer._run`
(lines 27-29); the remaining constructors are the foreground calls:
`RepeatTimer.start` (lines 31-37), `RepeatTimer.stop` via
`BeepController.stop` (lines 39-43, 103-105), `BeepController.set_delay`
(lines 78-82), `pause` (93-96), `resume` (98-101), `set_volume` (73-76)
and `set_sound` (84-91). -/
inductive Act where
  | elapse : Act
  | elapseOrphan : Act
  | runSetFlag : Act
  | runStart : Act
  | runCallback : Act
  | stopT : Act
  | startT : Act
  | setDelayA : Int → Act
  | pauseC : Act
  | resumeC : Act
  | setVolumeA : Int → Act
  | setSoundA : String → Act
deriving DecidableEq

/-- `RepeatTimer.start` (bipmap.py lines 31-37): if `not self.is_running`,
create a fresh `threading.Timer`, overwrite `self._timer` with it (so a
still-pending overwritten timer becomes an uncancellable orphan), start it
and set `is_running = True`; otherwise do nothing. -/
def timerStartLogic (s : Sys) : Sys :=
  if s.running then s
  else
    { s with
      orphans := s.orphans + (if s.latestPending then 1 else 0),
      latestPending := true,
      running := true }

/-- Small-step semantics: execute one `Act` on a `Sys` state, producing the
next state and the list of playback events it emits.  A step whose thread
or timer precondition does not hold (e.g. `elapse` with no pending timer)
is a stutter.  `loads` models which paths `pygame.mixer.music.load`
accepts. -/
def stepF (loads : String → Bool) : Act → Sys → Sys × List PlayEv
  | Act.elapse, s =>
      if s.latestPending then
        ({ s with latestPending := false, inA := s.inA + 1 }, [])
      else (s, [])
  | Act.elapseOrphan, s =>
      if s.orphans = 0 then (s, [])
      else ({ s with orphans := s.orphans - 1, inA := s.inA + 1 }, [])
  | Act.runSetFlag, s =>
      if s.inA = 0 then (s, [])
      else ({ s with inA := s.inA - 1, inA2 := s.inA2 + 1, running := false }, [])
  | Act.runStart, s =>
      if s.inA2 = 0 then (s, [])
      else (timerStartLogic { s with inA2 := s.inA2 - 1, inB := s.inB + 1 }, [])
  | Act.runCallback, s =>
      if s.inB = 0 then (s, [])
      else
        ({ s with inB := s.inB - 1 },
         if s.paused then [] else [(s.loaded, s.volume)])
  | Act.stopT, s =>
      ({ s with latestPending := false, running := false }, [])
  | Act.startT, s => (timerStartLogic s, [])
  | Act.setDelayA d, s => ({ s with delay := d, interval := d }, [])
  | Act.pauseC, s => ({ s with paused := true }, [])
  | Act.resumeC, s => ({ s with paused := false }, [])
  | Act.setVolumeA v, s => ({ s with volume := v }, [])
  | Act.setSoundA p, s =>
      ({ s with sound := p, loaded := if loads p then p else s.loaded }, [])

/-- Run a list of steps, concatenating the playback events they emit. -/
def exec (loads : String → Bool) : List Act → Sys → Sys × List PlayEv
  | [], s => (s, [])
  | a :: as, s =>
      ((exec loads as (stepF loads a s).1).1,
       (stepF loads a s).2 ++ (exec loads as (stepF loads a s).1).2)

/-- State right after `BeepController.__init__(sound, delay, volume)`
succeeds (bipmap.py lines 50-65): the fields are stored, the sound is
loaded into the mixer, `paused` is `False` and `RepeatTimer.__init__`
(lines 16-23) has already called `start()`, so one fire is pending. -/
def initSys (sound : String) (delay volume : Int) : Sys :=
  { interval := delay, latestPending := true, orphans := 0, running := true,
    inA := 0, inA2 := 0, inB := 0,
    sound := sound, loaded := sound,
    delay := delay, volume := volume, paused := false }

/-- Number of simultaneously scheduled (pending) fires: the timer
referenced by `self._timer`, if pending, plus all orphaned pending
timers. -/
def pendingCount (s : Sys) : Nat :=
  (if s.latestPending then 1 else 0) + s.orphans

/-- A quiescent running state: one fire pending, `is_running` true, no
orphaned timer and no `_run` execution in flight.  This is the state
between fires during normal operation (e.g. `initSys`). -/
def Clean (s : Sys) : Prop :=
  s.latestPending = true ∧ s.running = true ∧ s.orphans = 0 ∧
    s.inA = 0 ∧ s.inA2 = 0 ∧ s.inB = 0

instance (s : Sys) : Decidable (Clean s) := by
  unfold Clean
  infer_instance

/-- The four steps making up one complete fire of the timer: the pending
timer elapses, `_run` executes its three statements (reschedule, then the
`dong` callback). -/
def fireActs : List Act :=
  [Act.elapse, Act.runSetFlag, Act.runStart, Act.runCallback]

/-- `n` consecutive complete fires. -/
def fireRepeat : Nat → List Act
  | 0 => []
  | n + 1 => fireActs ++ fireRepeat n

/-- Steps the program itself can perform after construction:
everything except an external `RepeatTimer.start()` call (the program
calls `start` only from `RepeatTimer.__init__` and from within `_run`). -/
def progAct (a : Act) : Prop := a ≠ Act.startT

instance : DecidablePred progAct :=
  fun a => inferInstanceAs (Decidable (a ≠ Act.startT))

/-- Inductive invariant for single-scheduling: no orphaned pending timer,
at most one `_run` execution between elapse and its `self.start()` call,
and none at all while a timer is pending. -/
def Inv (s : Sys) : Prop :=
  s.orphans = 0 ∧ s.inA + s.inA2 ≤ 1 ∧
    (s.latestPending = true → s.inA + s.inA2 = 0)

/-- Dead timer state: nothing pending, nothing in flight.  This is the
state after `stop()` when no fire was racing with it. -/
def Jdead (s : Sys) : Prop :=
  s.latestPending = false ∧ s.orphans = 0 ∧
    s.inA = 0 ∧ s.inA2 = 0 ∧ s.inB = 0

/-! ## The command loop (bipmap.py `main`, lines 177-265)

Strings are handled as `List Char`.  `pyStrip` models Python `str.strip()`
(ASCII whitespace), `pySplit` models `str.split()` with no argument, and
`pyIntParse` models `int(str)` on the grammar Python accepts: optional
surrounding whitespace, an optional sign, then digits possibly separated
by single underscores. -/

/-- Python `str.strip()`: drop whitespace from both ends. -/
def pyStrip (s : List Char) : List Char :=
  ((s.dropWhile Char.isWhitespace).reverse.dropWhile Char.isWhitespace).reverse

/-- Helper for `pySplit`: accumulate the current token (reversed). -/
def pySplitAux : List Char → List Char → List (List Char)
  | [], acc => if acc = [] then [] else [acc.reverse]
  | c :: cs, acc =>
      if c.isWhitespace then
        if acc = [] then pySplitAux cs []
        else acc.reverse :: pySplitAux cs []
      else pySplitAux cs (c :: acc)

/-- Python `str.split()` with no argument: split on runs of whitespace,
discarding empty tokens. -/
def pySplit (s : List Char) : List (List Char) := pySplitAux s []

/-- After the first digit of a Python integer literal: digits, possibly
separated by single underscores (an underscore must be followed by a
digit). -/
def digitRest : List Char → Bool
  | [] => true
  | c :: cs =>
      if c = '_' then
        match cs with
        | [] => false
        | d :: ds => d.isDigit && digitRest ds
      else c.isDigit && digitRest cs

/-- A valid Python `digitpart`: nonempty, starts with a digit, underscores
only between digits. -/
def digitPartOk : List Char → Bool
  | [] => false
  | c :: cs => c.isDigit && digitRest cs

/-- Numeric value of a digit string (underscores removed beforehand). -/
def digitsVal (s : List Char) : Nat :=
  s.foldl (fun n c => n * 10 + (c.toNat - 48)) 0

/-- The unsigned part of Python `int(str)`. -/
def pyNatPart (s : List Char) : Option Nat :=
  if digitPartOk s then some (digitsVal (s.filter (fun c => c ≠ '_'))) else none

/-- Python `int(str)`: strip whitespace, optional sign, digit part;
`none` models `ValueError`.  In particular `int("2.5")` fails. -/
def pyIntParse (s : List Char) : Option Int :=
  match pyStrip s with
  | '+' :: rest => (pyNatPart rest).map fun n => (n : Int)
  | '-' :: rest => (pyNatPart rest).map fun n => -(n : Int)
  | rest => (pyNatPart rest).map fun n => (n : Int)

/-- State of the command loop: the controller/timer state plus the three
keys of the persisted config store (`config["DEFAULT"]`), which `main`
rewrites after each accepted mutation (bipmap.py lines 202-204, 216-218,
233-235). -/
structure LoopS where
  sys : Sys
  configSound : String
  configDelay : Int
  configVolume : Int
deriving DecidableEq

/-- Result of one loop iteration: keep looping, or `break` out. -/
inductive LoopRes where
  | next : LoopRes
  | done : LoopRes
deriving DecidableEq

/-- The `-v ` branch (bipmap.py lines 193-207): parse `cmd.split()[1]` as
an int (a missing token is the caught `IndexError`), reject values outside
0-100 (`raise ValueError`), otherwise call `set_volume` and persist. -/
def handleVolume (loads : String → Bool) (tok : Option (List Char))
    (st : LoopS) : LoopS :=
  match tok with
  | none => st
  | some t =>
      match pyIntParse t with
      | none => st
      | some v =>
          if 100 < v ∨ v < 0 then st
          else
            { st with sys := (stepF loads (Act.setVolumeA v) st.sys).1,
                      configVolume := v }

/-- The `-d ` branch (bipmap.py lines 209-221): parse `cmd.split()[1]` as
an int; every parsed integer is accepted (there is no range check) and
passed to `set_delay`, then persisted. -/
def handleDelay (loads : String → Bool) (tok : Option (List Char))
    (st : LoopS) : LoopS :=
  match tok with
  | none => st
  | some t =>
      match pyIntParse t with
      | none => st
      | some d =>
          { st with sys := (stepF loads (Act.setDelayA d) st.sys).1,
                    configDelay := d }

/-- The `-s ` branch (bipmap.py lines 223-238): the argument is
`cmd.split(" ", 1)[1]`, i.e. everything after the first space; if the file
does not exist (`ex`), reject; otherwise call `set_sound` (which itself
may fail to load and keep the old mixer state) and persist the new path
unconditionally. -/
def handleSound (loads ex : String → Bool) (arg : String) (st : LoopS) :
    LoopS :=
  if ex arg then
    { st with sys := (stepF loads (Act.setSoundA arg) st.sys).1,
              configSound := arg }
  else st

/-- The exit tuple of bipmap.py line 248:
`("exit","exit()", "stop", "stop()", "quit", "quit()", "q")`.
Note there is no `"q()"`. -/
def exitCmds : List (List Char) :=
  ["exit".data, "exit()".data, "stop".data, "stop()".data,
   "quit".data, "quit()".data, "q".data]

/-- Whether a (stripped) command line matches any branch of the loop other
than the final `else` (which prints usage and changes nothing). -/
def recognizedCmd (c : List Char) : Bool :=
  List.isPrefixOf "-v ".data c || List.isPrefixOf "-d ".data c ||
    List.isPrefixOf "-s ".data c || c = "pause".data || c = "resume".data ||
    decide (c ∈ exitCmds)

/-- One iteration of the command loop on an already-stripped command line
(bipmap.py lines 193-265). -/
def dispatchCore (loads ex : String → Bool) (c : List Char) (st : LoopS) :
    LoopS × LoopRes :=
  if List.isPrefixOf "-v ".data c then
    (handleVolume loads (pySplit c)[1]? st, LoopRes.next)
  else if List.isPrefixOf "-d ".data c then
    (handleDelay loads (pySplit c)[1]? st, LoopRes.next)
  else if List.isPrefixOf "-s ".data c then
    (handleSound loads ex (String.mk (c.drop 3)) st, LoopRes.next)
  else if c = "pause".data then
    ({ st with sys := (stepF loads Act.pauseC st.sys).1 }, LoopRes.next)
  else if c = "resume".data then
    ({ st with sys := (stepF loads Act.resumeC st.sys).1 }, LoopRes.next)
  else if c ∈ exitCmds then
    ({ st with sys := (stepF loads Act.stopT st.sys).1 }, LoopRes.done)
  else (st, LoopRes.next)

/-- One iteration of the command loop on a raw input line:
`cmd = input("> ").strip()` (bipmap.py line 191), then dispatch. -/
def dispatch (loads ex : String → Bool) (line : String) (st : LoopS) :
    LoopS × LoopRes :=
  dispatchCore loads ex (pyStrip line.data) st

/-! ## Helper lemmas -/

theorem exec_append (loads : String → Bool) (L1 L2 : List Act) (s : Sys) :
    exec loads (L1 ++ L2) s =
      ((exec loads L2 (exec loads L1 s).1).1,
       (exec loads L1 s).2 ++ (exec loads L2 (exec loads L1 s).1).2) := by
  induction L1 generalizing s with
  | nil => simp [exec]
  | cons a as ih => simp [exec, ih]

/-- On a quiescent running state, one complete fire returns to exactly the
same state and plays the current sound at the current volume unless
paused. -/
theorem exec_fire_of_clean (loads : String → Bool) (s : Sys) (h : Clean s) :
    exec loads fireActs s =
      (s, if s.paused then [] else [(s.loaded, s.volume)]) := by
  obtain ⟨h1, h2, h3, h4, h5, h6⟩ := h
  cases s
  simp_all [exec, fireActs, stepF, timerStartLogic]

/-- Any number of fires on a paused quiescent state change nothing and
play nothing. -/
theorem exec_fireRepeat_paused (loads : String → Bool) (s : Sys) (n : Nat)
    (h : Clean s) (hp : s.paused = true) :
    exec loads (fireRepeat n) s = (s, []) := by
  induction n with
  | zero => simp [fireRepeat, exec]
  | succ n ih =>
      rw [fireRepeat, exec_append, exec_fire_of_clean loads s h, hp]
      simpa using ih

theorem clean_initSys (sound : String) (delay volume : Int) :
    Clean (initSys sound delay volume) := by
  simp [Clean, initSys]

/-- `Inv` is preserved by every step the program can perform (everything
except an external `start()` call). -/
theorem inv_stepF (loads : String → Bool) (a : Act) (s : Sys)
    (h : Inv s) (ha : progAct a) : Inv (stepF loads a s).1 := by
  obtain ⟨h1, h2, h3⟩ := h
  cases a <;>
    simp_all [stepF, timerStartLogic, Inv, progAct] <;>
    split_ifs <;> simp_all <;> omega

/-- `Inv` holds in every state the program can reach from a state
satisfying it. -/
theorem inv_exec (loads : String → Bool) (acts : List Act) (s : Sys)
    (h : Inv s) (hp : ∀ a ∈ acts, progAct a) : Inv (exec loads acts s).1 := by
  induction acts generalizing s with
  | nil => simpa [exec] using h
  | cons a as ih =>
      rw [exec]
      exact ih (stepF loads a s).1
        (inv_stepF loads a s h (hp a (List.mem_cons_self a as)))
        (fun b hb => hp b (List.mem_cons_of_mem a hb))

/-- A dead timer stays dead under every program step, and no program step
from a dead state emits playback. -/
theorem jdead_stepF (loads : String → Bool) (a : Act) (s : Sys)
    (h : Jdead s) (ha : progAct a) :
    Jdead (stepF loads a s).1 ∧ (stepF loads a s).2 = [] := by
  obtain ⟨h1, h2, h3, h4, h5⟩ := h
  cases a <;> simp_all [stepF, timerStartLogic, Jdead, progAct]

/-- From a dead timer state, no program trace emits any playback, and the
timer never becomes pending again. -/
theorem jdead_exec (loads : String → Bool) (acts : List Act) (s : Sys)
    (h : Jdead s) (hp : ∀ a ∈ acts, progAct a) :
    Jdead (exec loads acts s).1 ∧ (exec loads acts s).2 = [] := by
  induction acts generalizing s with
  | nil => simpa [exec] using h
  | cons a as ih =>
      rw [exec]
      obtain ⟨hj, he⟩ :=
        jdead_stepF loads a s h (hp a (List.mem_cons_self a as))
      obtain ⟨hj2, he2⟩ :=
        ih (stepF loads a s).1 hj (fun b hb => hp b (List.mem_cons_of_mem a hb))
      exact ⟨hj2, by simp [he, he2]⟩

/-! ## Claims -/

/-- Claim C1, counterexample.  The claim says that after
`BeepController.stop()` returns, no fire produces a playback call and no
further fire is scheduled, because the fired callback checks the
controller's paused/stop state.  In the code, `dong` checks only
`self.paused` (line 69) and `stop` (lines 103-105) never sets `paused`, so
a fire already in flight when `stop` is called still plays.  Concretely:
from the initial state, the pending timer elapses and `_run` executes its
first two statements; then the foreground calls `stop()`; the in-flight
callback then still emits a playback event, and in a second trace where
`stop()` lands before `_run`'s `self.start()`, that `start()` schedules a
further fire after `stop` has returned. -/
theorem C1_counterexample :
    (stepF (fun p => p == "beep.wav") Act.runCallback
      (exec (fun p => p == "beep.wav")
        [Act.elapse, Act.runSetFlag, Act.runStart, Act.stopT]
        (initSys "beep.wav" 7 20)).1).2 = [("beep.wav", 20)]
    ∧ (stepF (fun p => p == "beep.wav") Act.runStart
        (exec (fun p => p == "beep.wav")
          [Act.elapse, Act.runSetFlag, Act.stopT]
          (initSys "beep.wav" 7 20)).1).1.latestPending = true := by
  decide

/-- Claim C1, amended: if no fire is in flight at the moment
`BeepController.stop()` is called, then after `stop` returns no program
step ever produces a playback event, and no fire is or becomes scheduled.
A fire racing with `stop` does not enjoy this guarantee (see the
counterexample), since `dong` gates playback only on `paused`, which
`stop` does not set. -/
theorem C1_stop_kills_when_quiescent (loads : String → Bool) (s : Sys)
    (acts : List Act)
    (h0 : s.orphans = 0) (h1 : s.inA = 0) (h2 : s.inA2 = 0) (h3 : s.inB = 0)
    (hp : ∀ a ∈ acts, progAct a) :
    (exec loads acts (stepF loads Act.stopT s).1).2 = []
    ∧ pendingCount (exec loads acts (stepF loads Act.stopT s).1).1 = 0 := by
  have hj : Jdead (stepF loads Act.stopT s).1 := by
    simp [Jdead, stepF, h0, h1, h2, h3]
  obtain ⟨⟨g1, g2, g3, g4, g5⟩, hplays⟩ :=
    jdead_exec loads acts (stepF loads Act.stopT s).1 hj hp
  exact ⟨hplays, by simp [pendingCount, g1, g2]⟩

/-- Claim C1, witness for the amended theorem. -/
theorem C1_witness :
    (exec (fun _ => true) [Act.elapse, Act.runCallback]
      (stepF (fun _ => true) Act.stopT (initSys "beep.wav" 7 20)).1).2 = []
    ∧ pendingCount (exec (fun _ => true) [Act.elapse, Act.runCallback]
        (stepF (fun _ => true) Act.stopT (initSys "beep.wav" 7 20)).1).1 = 0 :=
  C1_stop_kills_when_quiescent (fun _ => true) (initSys "beep.wav" 7 20)
    [Act.elapse, Act.runCallback]
    (by decide) (by decide) (by decide) (by decide) (by decide)

/-- Claim C2, counterexample.  The claim says a failed `set_sound(p)`
leaves the entire prior controller state untouched, in particular that the
stored sound reference still names the previously loaded sound.  In the
code, `set_sound` assigns `self.sound = sound` (line 87) before the
`mixer.music.load(sound)` attempt (line 88), so after a failed load the
stored reference names the failing path, not the previously loaded
sound. -/
theorem C2_counterexample :
    (stepF (fun p => p == "beep.wav") (Act.setSoundA "bad.mp3")
      (initSys "beep.wav" 7 20)).1.sound = "bad.mp3"
    ∧ (fun p => p == "beep.wav") "bad.mp3" = false
    ∧ (stepF (fun p => p == "beep.wav") (Act.setSoundA "bad.mp3")
        (initSys "beep.wav" 7 20)).1 ≠ initSys "beep.wav" 7 20 := by
  decide

/-- Claim C2, amended: when the load of path `p` fails, `set_sound(p)`
leaves the mixer's loaded sound, the volume, the delay, the paused flag
and the timer state untouched, and the previously loaded sound is still
what the next unpaused fire plays — but the stored attribute
`self.sound` is overwritten with the failing path `p`. -/
theorem C2_set_sound_failure (loads : String → Bool) (s : Sys) (p : String)
    (hl : loads p = false) (hc : Clean s) (hp : s.paused = false) :
    (stepF loads (Act.setSoundA p) s).1.loaded = s.loaded
    ∧ (stepF loads (Act.setSoundA p) s).1.volume = s.volume
    ∧ (stepF loads (Act.setSoundA p) s).1.delay = s.delay
    ∧ (stepF loads (Act.setSoundA p) s).1.paused = s.paused
    ∧ (stepF loads (Act.setSoundA p) s).1.latestPending = s.latestPending
    ∧ (stepF loads (Act.setSoundA p) s).1.sound = p
    ∧ (exec loads fireActs (stepF loads (Act.setSoundA p) s).1).2
        = [(s.loaded, s.volume)] := by
  obtain ⟨h1, h2, h3, h4, h5, h6⟩ := hc
  have hstep : (stepF loads (Act.setSoundA p) s).1
      = { s with sound := p } := by
    simp [stepF, hl]
  rw [hstep]
  have hcn : Clean { s with sound := p } := by
    simp [Clean, h1, h2, h3, h4, h5, h6]
  rw [exec_fire_of_clean loads _ hcn]
  simp [hp]

/-- Claim C2, witness for the amended theorem. -/
theorem C2_witness :
    (stepF (fun p => p == "beep.wav") (Act.setSoundA "bad.mp3")
      (initSys "beep.wav" 7 20)).1.loaded = "beep.wav"
    ∧ (exec (fun p => p == "beep.wav") fireActs
        (stepF (fun p => p == "beep.wav") (Act.setSoundA "bad.mp3")
          (initSys "beep.wav" 7 20)).1).2 = [("beep.wav", 20)] := by
  have h := C2_set_sound_failure (fun p => p == "beep.wav")
    (initSys "beep.wav" 7 20) "bad.mp3" (by decide) (by decide) (by decide)
  exact ⟨h.1, h.2.2.2.2.2.2⟩

/-- Claim C3, counterexample.  The claim says the command loop rejects any
`-d` value not strictly greater than 0, so `set_delay` is only ever called
with a positive argument.  The `-d` branch (lines 209-221) performs no
range check at all: `-d 0` is parsed, accepted, applied and persisted. -/
theorem C3_counterexample :
    (dispatch (fun _ => true) (fun _ => true) "-d 0"
      { sys := initSys "beep.wav" 7 20, configSound := "beep.wav",
        configDelay := 7, configVolume := 20 }).1.sys.delay = 0
    ∧ (dispatch (fun _ => true) (fun _ => true) "-d 0"
        { sys := initSys "beep.wav" 7 20, configSound := "beep.wav",
          configDelay := 7, configVolume := 20 }).1.sys.interval = 0
    ∧ (dispatch (fun _ => true) (fun _ => true) "-d 0"
        { sys := initSys "beep.wav" 7 20, configSound := "beep.wav",
          configDelay := 7, configVolume := 20 }).1.configDelay = 0 := by
  decide

/-- Claim C3, amended: the `-d` branch rejects exactly the arguments on
which integer parsing fails (leaving all state unchanged); every
successfully parsed integer `d` — including `d = 0` and negative `d` — is
accepted, passed to `set_delay` and persisted, so `set_delay` is not
restricted to positive arguments by the loop. -/
theorem C3_delay_unvalidated (loads : String → Bool) (st : LoopS)
    (t : List Char) (d : Int) :
    (pyIntParse t = none → handleDelay loads (some t) st = st)
    ∧ (pyIntParse t = some d →
        handleDelay loads (some t) st =
          { st with sys := { st.sys with delay := d, interval := d },
                    configDelay := d }) := by
  constructor
  · intro h
    simp [handleDelay, h]
  · intro h
    simp [handleDelay, h, stepF]

/-- Claim C3, witness for the amended theorem, at the non-positive parsed
value 0. -/
theorem C3_witness :
    handleDelay (fun _ => true) (some "0".data)
      { sys := initSys "beep.wav" 7 20, configSound := "beep.wav",
        configDelay := 7, configVolume := 20 } =
      { sys := { initSys "beep.wav" 7 20 with delay := 0, interval := 0 },
        configSound := "beep.wav", configDelay := 0, configVolume := 20 } :=
  (C3_delay_unvalidated (fun _ => true)
    { sys := initSys "beep.wav" 7 20, configSound := "beep.wav",
      configDelay := 7, configVolume := 20 } "0".data 0).2 (by decide)

/-- Claim C4: for every integer `v` with `0 ≤ v ≤ 100`, `set_volume(v)`
followed by a fire plays the loaded sound at gain exactly `v/100.0`, that
gain lies in `[0,1]`, and a fire while paused performs no playback and
mutates no state. -/
theorem C4_volume_gain (loads : String → Bool) (s u : Sys) (v : Int)
    (hc : Clean s) (hp : s.paused = false) (h0 : 0 ≤ v) (h1 : v ≤ 100)
    (hcu : Clean u) (hpu : u.paused = true) :
    (exec loads (Act.setVolumeA v :: fireActs) s).2 = [(s.loaded, v)]
    ∧ playGain v = (v : ℚ) / 100
    ∧ 0 ≤ playGain v
    ∧ playGain v ≤ 1
    ∧ exec loads fireActs u = (u, []) := by
  obtain ⟨k1, k2, k3, k4, k5, k6⟩ := hc
  have hcn : Clean { s with volume := v } := by
    simp [Clean, k1, k2, k3, k4, k5, k6]
  refine ⟨?_, rfl, ?_, ?_, ?_⟩
  · rw [exec]
    simp only [stepF]
    rw [exec_fire_of_clean loads _ hcn]
    simp [hp]
  · exact div_nonneg (by exact_mod_cast h0) (by norm_num)
  · rw [playGain, div_le_one (by norm_num)]
    exact_mod_cast h1
  · rw [exec_fire_of_clean loads u hcu]
    simp [hpu]

/-- Claim C4, witness. -/
theorem C4_witness :
    (exec (fun _ => true) (Act.setVolumeA 50 :: fireActs)
      (initSys "beep.wav" 7 20)).2 = [("beep.wav", 50)]
    ∧ playGain 50 = ((50 : Int) : ℚ) / 100
    ∧ 0 ≤ playGain 50
    ∧ playGain 50 ≤ 1
    ∧ exec (fun _ => true) fireActs
        { initSys "beep.wav" 7 20 with paused := true }
        = ({ initSys "beep.wav" 7 20 with paused := true }, []) :=
  C4_volume_gain (fun _ => true) (initSys "beep.wav" 7 20)
    { initSys "beep.wav" 7 20 with paused := true } 50
    (by decide) (by decide) (by decide) (by decide) (by decide) (by decide)

/-- Claim C5: after `pause()`, any number of fires produce zero playback
events while the schedule keeps running (a fire stays pending); after
`resume()`, the next already-scheduled fire plays as normal, with no new
`start()` call anywhere in the trace. -/
theorem C5_pause_resume (loads : String → Bool) (s : Sys) (n : Nat)
    (hc : Clean s) :
    (exec loads (Act.pauseC :: fireRepeat n) s).2 = []
    ∧ (exec loads (Act.pauseC :: fireRepeat n) s).1.latestPending = true
    ∧ (exec loads ((Act.pauseC :: fireRepeat n) ++ Act.resumeC :: fireActs) s).2
        = [(s.loaded, s.volume)] := by
  obtain ⟨k1, k2, k3, k4, k5, k6⟩ := hc
  have hcp : Clean { s with paused := true } := by
    simp [Clean, k1, k2, k3, k4, k5, k6]
  have hrep : exec loads (fireRepeat n) { s with paused := true }
      = ({ s with paused := true }, []) :=
    exec_fireRepeat_paused loads _ n hcp rfl
  have hcons : exec loads (Act.pauseC :: fireRepeat n) s
      = ({ s with paused := true }, []) := by
    rw [exec]
    simp only [stepF]
    rw [hrep]
    simp
  refine ⟨by rw [hcons], by rw [hcons]; exact k1, ?_⟩
  rw [exec_append, hcons]
  have hcr : Clean { s with paused := false } := by
    simp [Clean, k1, k2, k3, k4, k5, k6]
  have hres : exec loads (Act.resumeC :: fireActs) { s with paused := true }
      = ({ s with paused := false }, [(s.loaded, s.volume)]) := by
    rw [exec]
    simp only [stepF]
    rw [exec_fire_of_clean loads _ hcr]
    simp
  rw [hres]
  simp

/-- Claim C5, witness. -/
theorem C5_witness :
    (exec (fun _ => true) (Act.pauseC :: fireRepeat 3)
      (initSys "beep.wav" 7 20)).2 = []
    ∧ (exec (fun _ => true) (Act.pauseC :: fireRepeat 3)
        (initSys "beep.wav" 7 20)).1.latestPending = true
    ∧ (exec (fun _ => true)
        ((Act.pauseC :: fireRepeat 3) ++ Act.resumeC :: fireActs)
        (initSys "beep.wav" 7 20)).2 = [("beep.wav", 20)] :=
  C5_pause_resume (fun _ => true) (initSys "beep.wav" 7 20) 3 (by decide)

/-- Claim C6: `RepeatTimer.start()` on an already-running timer is a
no-op: the guard `if not self.is_running` (line 33) fails, so the whole
state — interval, running flag and pending scheduled fire — is unchanged
and nothing is played. -/
theorem C6_start_idempotent (loads : String → Bool) (s : Sys)
    (h : s.running = true) :
    stepF loads Act.startT s = (s, []) := by
  simp [stepF, timerStartLogic, h]

/-- Claim C6, witness. -/
theorem C6_witness :
    stepF (fun _ => true) Act.startT (initSys "beep.wav" 7 20)
      = (initSys "beep.wav" 7 20, []) :=
  C6_start_idempotent (fun _ => true) (initSys "beep.wav" 7 20) (by decide)

/-- Claim C7, counterexample.  The claim says no sequence of
start/fire/stop/set-interval operations produces two simultaneously
pending scheduled fires.  Interleaving a foreground `stop(); start()` pair
into an in-flight fire does: the pending timer elapses; `stop()` cancels
nothing (the timer has already fired) and clears `is_running`; `start()`
schedules a new timer T2; the in-flight `_run` then executes
`self.is_running = False` and `self.start()`, which overwrites
`self._timer` with a new timer T3 while T2 is still pending — two fires
are now scheduled at once. -/
theorem C7_counterexample :
    pendingCount (exec (fun p => p == "beep.wav")
      [Act.elapse, Act.stopT, Act.startT, Act.runSetFlag, Act.runStart]
      (initSys "beep.wav" 7 20)).1 = 2 := by
  decide

/-- Claim C7, amended: as long as `start()` is not invoked concurrently
with an in-flight fire — and after construction this program only calls
`start` from within the fire callback itself — every reachable state has
at most one pending scheduled fire. -/
theorem C7_single_pending (loads : String → Bool) (sound : String)
    (delay volume : Int) (acts : List Act)
    (hp : ∀ a ∈ acts, progAct a) :
    pendingCount (exec loads acts (initSys sound delay volume)).1 ≤ 1 := by
  obtain ⟨g1, g2, g3⟩ :=
    inv_exec loads acts (initSys sound delay volume)
      (by simp [Inv, initSys]) hp
  rw [pendingCount, g1]
  split <;> omega

/-- Claim C7, witness for the amended theorem. -/
theorem C7_witness :
    pendingCount (exec (fun _ => true)
      [Act.elapse, Act.runSetFlag, Act.stopT, Act.runStart, Act.runCallback]
      (initSys "beep.wav" 7 20)).1 ≤ 1 :=
  C7_single_pending (fun _ => true) "beep.wav" 7 20
    [Act.elapse, Act.runSetFlag, Act.stopT, Act.runStart, Act.runCallback]
    (by decide)

/-- Claim C8, counterexample.  The claim says every exit command among
quit, exit, stop, q and their parenthesized variants stops the controller
and terminates the loop.  The tuple at line 248 is
`("exit","exit()", "stop", "stop()", "quit", "quit()", "q")`: it has no
`"q()"`, so the parenthesized variant of `q` falls through to the `else`
branch, which prints usage and keeps looping with the timer running. -/
theorem C8_counterexample :
    dispatch (fun _ => true) (fun _ => true) "q()"
      { sys := initSys "beep.wav" 7 20, configSound := "beep.wav",
        configDelay := 7, configVolume := 20 }
      = ({ sys := initSys "beep.wav" 7 20, configSound := "beep.wav",
           configDelay := 7, configVolume := 20 }, LoopRes.next) := by
  decide

/-- Claim C8, amended: the exit commands are exactly `exit`, `exit()`,
`stop`, `stop()`, `quit`, `quit()` and `q` — the parenthesized variant of
`q` is not among them.  Each of them calls `BeepController.stop()` and
terminates the loop; any command line matching no branch (including
`q()`) leaves the whole state unchanged and keeps looping. -/
theorem C8_exit_dispatch (loads ex : String → Bool) (c : List Char)
    (st : LoopS) :
    (c ∈ exitCmds →
      dispatchCore loads ex c st =
        ({ st with sys := { st.sys with latestPending := false,
                                        running := false } }, LoopRes.done))
    ∧ (recognizedCmd c = false →
        dispatchCore loads ex c st = (st, LoopRes.next)) := by
  constructor
  · intro h
    simp only [exitCmds, List.mem_cons, List.not_mem_nil, or_false] at h
    rcases h with h | h | h | h | h | h | h <;> subst h <;> rfl
  · intro h
    simp only [recognizedCmd, Bool.or_eq_false_iff,
      decide_eq_false_iff_not] at h
    obtain ⟨⟨⟨⟨⟨hv, hd⟩, hs⟩, hp⟩, hr⟩, hq⟩ := h
    simp [dispatchCore, hv, hd, hs, hp, hr, hq]

/-- Claim C8, witness for the amended theorem. -/
theorem C8_witness :
    dispatchCore (fun _ => true) (fun _ => true) "quit".data
      { sys := initSys "beep.wav" 7 20, configSound := "beep.wav",
        configDelay := 7, configVolume := 20 }
      = ({ sys := { initSys "beep.wav" 7 20 with latestPending := false, running := false },
           configSound := "beep.wav", configDelay := 7,
           configVolume := 20 }, LoopRes.done)
    ∧ dispatchCore (fun _ => true) (fun _ => true) "hello".data
        { sys := initSys "beep.wav" 7 20, configSound := "beep.wav",
          configDelay := 7, configVolume := 20 }
        = ({ sys := initSys "beep.wav" 7 20, configSound := "beep.wav",
             configDelay := 7, configVolume := 20 }, LoopRes.next) :=
  ⟨(C8_exit_dispatch (fun _ => true) (fun _ => true) "quit".data
      { sys := initSys "beep.wav" 7 20, configSound := "beep.wav",
        configDelay := 7, configVolume := 20 }).1 (by decide),
   (C8_exit_dispatch (fun _ => true) (fun _ => true) "hello".data
      { sys := initSys "beep.wav" 7 20, configSound := "beep.wav",
        configDelay := 7, configVolume := 20 }).2 (by decide)⟩

/-- Claim C9: `BeepController.set_volume` performs no validation or
clamping: for every integer `v` it stores exactly `v`, the next unpaused
fire plays at gain `v/100.0`, and for `v < 0` or `v > 100` that gain lies
outside `[0,1]`. -/
theorem C9_no_volume_validation (loads : String → Bool) (s : Sys) (v : Int)
    (hc : Clean s) (hp : s.paused = false) :
    (stepF loads (Act.setVolumeA v) s).1.volume = v
    ∧ (exec loads (Act.setVolumeA v :: fireActs) s).2 = [(s.loaded, v)]
    ∧ (v < 0 → playGain v < 0)
    ∧ (100 < v → 1 < playGain v) := by
  obtain ⟨k1, k2, k3, k4, k5, k6⟩ := hc
  have hcn : Clean { s with volume := v } := by
    simp [Clean, k1, k2, k3, k4, k5, k6]
  refine ⟨by simp [stepF], ?_, ?_, ?_⟩
  · rw [exec]
    simp only [stepF]
    rw [exec_fire_of_clean loads _ hcn]
    simp [hp]
  · intro hv
    exact div_neg_of_neg_of_pos (by exact_mod_cast hv) (by norm_num)
  · intro hv
    rw [playGain, one_lt_div (by norm_num : (0:ℚ) < 100)]
    exact_mod_cast hv

/-- Claim C9, witness at the out-of-range volume 150. -/
theorem C9_witness :
    (stepF (fun _ => true) (Act.setVolumeA 150)
      (initSys "beep.wav" 7 20)).1.volume = 150
    ∧ (exec (fun _ => true) (Act.setVolumeA 150 :: fireActs)
        (initSys "beep.wav" 7 20)).2 = [("beep.wav", 150)]
    ∧ ((150 : Int) < 0 → playGain 150 < 0)
    ∧ ((100 : Int) < 150 → 1 < playGain 150) :=
  C9_no_volume_validation (fun _ => true) (initSys "beep.wav" 7 20) 150
    (by decide) (by decide)

/-- Claim C10: the `-d` branch parses its argument with Python `int()`,
which rejects non-integer numerals such as "2.5"; on such input the
command is rejected and neither the controller delay, the timer interval
nor the config store changes, and the loop continues. -/
theorem C10_delay_strict_int (loads ex : String → Bool) (rest : List Char)
    (st : LoopS) (t : List Char)
    (ht : (pySplit ('-' :: 'd' :: ' ' :: rest))[1]? = some t)
    (hparse : pyIntParse t = none) :
    dispatchCore loads ex ('-' :: 'd' :: ' ' :: rest) st = (st, LoopRes.next)
    ∧ pyIntParse "2.5".data = none := by
  refine ⟨?_, by decide⟩
  have hv : List.isPrefixOf "-v ".data ('-' :: 'd' :: ' ' :: rest) = false := by
    simp [List.isPrefixOf]
  have hd : List.isPrefixOf "-d ".data ('-' :: 'd' :: ' ' :: rest) = true := by
    simp [List.isPrefixOf]
  simp [dispatchCore, hv, hd, ht, handleDelay, hparse]

/-- Claim C10, witness at the input line "-d 2.5". -/
theorem C10_witness :
    dispatchCore (fun _ => true) (fun _ => true) ('-' :: 'd' :: ' ' :: "2.5".data)
      { sys := initSys "beep.wav" 7 20, configSound := "beep.wav",
        configDelay := 7, configVolume := 20 }
      = ({ sys := initSys "beep.wav" 7 20, configSound := "beep.wav",
           configDelay := 7, configVolume := 20 }, LoopRes.next)
    ∧ pyIntParse "2.5".data = none :=
  C10_delay_strict_int (fun _ => true) (fun _ => true) "2.5".data
    { sys := initSys "beep.wav" 7 20, configSound := "beep.wav",
      configDelay := 7, configVolume := 20 } "2.5".data
    (by decide) (by decide)

end Bipmap
